import Mathlib

/-!
Shallow embedding of the Crypto_Assignment repository
(src/crypto_tracker.py and src/generate_report.py) in Lean 4,
together with theorems settling the frozen claims about it.

Machine floats of the source are modelled as rationals (Rat); a pandas
missing value (NaN produced for an absent JSON key) is modelled as
Option.none.  Fallible Python code is modelled with Except String, the
error string naming the Python exception raised.
-/

namespace CryptoAssignment

/- ### Series helpers (pandas column operations) -/

/-- Sum of a list of rationals, as pandas Series.sum over the present
(non-NaN) values of a numeric column. -/
def sumOf (xs : List Rat) : Rat := xs.foldl (· + ·) 0

/-- Mean of the present values of a numeric column; pandas returns NaN on
an empty column, modelled as none. -/
def meanOf (xs : List Rat) : Option Rat :=
  if xs.isEmpty then none else some (sumOf xs / (xs.length : Rat))

/-- Stable insertion into a descending-sorted list: an element is placed
before the first strictly smaller key, so among equal keys the inserted
(earlier) element comes first, matching pandas keep-first tie handling. -/
def insDescBy (key : α → Rat) (a : α) : List α → List α
  | [] => [a]
  | b :: bs => if key b ≤ key a then a :: b :: bs else b :: insDescBy key a bs

/-- Stable descending sort by a rational key. -/
def sortDescBy (key : α → Rat) : List α → List α
  | [] => []
  | a :: as => insDescBy key a (sortDescBy key as)

/-- Stable insertion into an ascending-sorted list (ties keep the earlier
element first). -/
def insAscBy (key : α → Rat) (a : α) : List α → List α
  | [] => [a]
  | b :: bs => if key a ≤ key b then a :: b :: bs else b :: insAscBy key a bs

/-- Stable ascending sort by a rational key. -/
def sortAscBy (key : α → Rat) : List α → List α
  | [] => []
  | a :: as => insAscBy key a (sortAscBy key as)

/-- Median of the present values of a numeric column: numpy median of the
sorted values, averaging the two middle values for even length; NaN
(none) on an empty column. -/
def medianOf (xs : List Rat) : Option Rat :=
  let s := sortAscBy id xs
  let k := s.length
  if k = 0 then none
  else if k % 2 = 1 then some (s.getD (k / 2) 0)
  else some ((s.getD (k / 2 - 1) 0 + s.getD (k / 2) 0) / 2)

/-- Maximum of the present values of an Option-valued column (pandas max
with default skipna); none when no value is present. -/
def seriesMax (xs : List (Option Rat)) : Option Rat :=
  match xs.filterMap id with
  | [] => none
  | v :: vs => some (vs.foldl max v)

/-- Minimum of the present values of an Option-valued column (pandas min
with default skipna); none when no value is present. -/
def seriesMin (xs : List (Option Rat)) : Option Rat :=
  match xs.filterMap id with
  | [] => none
  | v :: vs => some (vs.foldl min v)

/- ### Data model -/

/-- One raw record of the JSON array returned by the CoinGecko markets
endpoint, restricted to the six fields the program reads.  A key absent
from the JSON object is none; pd.DataFrame turns it into NaN. -/
structure RawRecord where
  name : Option String
  symbol : Option String
  current_price : Option Rat
  market_cap : Option Rat
  total_volume : Option Rat
  price_change_percentage_24h : Option Rat
deriving Repr, DecidableEq

/-- One row of the processed DataFrame, after process_data renamed the
six columns to Name, Symbol, Price (USD), Market Cap (USD),
24h Volume (USD), 24h Change (%). -/
structure NormRecord where
  name : Option String
  symbol : Option String
  price : Option Rat
  market_cap : Option Rat
  volume_24h : Option Rat
  change_24h : Option Rat
deriving Repr, DecidableEq

/-- Column renaming applied by process_data (crypto_tracker.py lines
39-46): the values are carried over unchanged. -/
def rawToNorm (r : RawRecord) : NormRecord :=
  ⟨r.name, r.symbol, r.current_price, r.market_cap, r.total_volume,
   r.price_change_percentage_24h⟩

/- ### Market data client: fetch_top_50_data (crypto_tracker.py lines 14-31) -/

/-- Body of the HTTP response: a well-formed JSON array of records, or a
malformed body on which response.json() raises JSONDecodeError. -/
inductive JsonBody where
  | records (rs : List RawRecord)
  | malformed (msg : String)
deriving Repr, DecidableEq

/-- The final HTTP response surfaced by requests.get (after any redirect
following). -/
structure HttpResponse where
  status : Nat
  body : JsonBody
deriving Repr, DecidableEq

/-- Outcome of the network call: a transport-level error raised as a
requests.RequestException, or a response. -/
inductive HttpOutcome where
  | transportError (msg : String)
  | response (r : HttpResponse)
deriving Repr, DecidableEq

/-- Observable result of fetch_top_50_data: the parsed records returned,
or a None return accompanied by the printed cause (failureNone carries
the text printed by the except branch), or an exception escaping the
function (uncaught). -/
inductive FetchResult where
  | success (rs : List RawRecord)
  | failureNone (printedCause : String)
  | uncaught (exn : String)
deriving Repr, DecidableEq

/-- True exactly when the result is an exception escaping the fetch
boundary. -/
def FetchResult.isUncaught : FetchResult → Bool
  | .uncaught _ => true
  | _ => false

/-- Message of the HTTPError raised by response.raise_for_status for a
status code in [400, 600). -/
def http_error_msg (st : Nat) : String :=
  "HTTPError: status " ++ toString st

/-- Models fetch_top_50_data (crypto_tracker.py lines 14-31).  The try
block catches requests.RequestException, which covers transport errors,
the HTTPError raised by raise_for_status on a 4xx/5xx status, and the
JSONDecodeError raised by response.json() on a malformed body (a
RequestException subclass in requests since 2.27); in each case the
function prints the cause and returns None. -/
def fetch_top_50_data (o : HttpOutcome) : FetchResult :=
  match o with
  | .transportError m => .failureNone ("Error fetching data: " ++ m)
  | .response r =>
    if 400 ≤ r.status && r.status < 600 then
      .failureNone ("Error fetching data: " ++ http_error_msg r.status)
    else
      match r.body with
      | .records rs => .success rs
      | .malformed m => .failureNone ("Error fetching data: " ++ m)

/- ### Aggregator: process_data (crypto_tracker.py lines 33-47) -/

/-- Models process_data.  pd.DataFrame(data) builds a column for every
key present in at least one record, filling NaN where a record lacks the
key; df with the six-column selection raises KeyError when one of the six
required columns is absent from every record; otherwise the six columns
are selected and renamed, keeping every row in source order.  An empty
(falsy) input returns None. -/
def process_data (data : List RawRecord) : Except String (Option (List NormRecord)) :=
  if data.isEmpty then .ok none
  else if data.all (fun r => r.name.isNone) then .error "KeyError: name"
  else if data.all (fun r => r.symbol.isNone) then .error "KeyError: symbol"
  else if data.all (fun r => r.current_price.isNone) then .error "KeyError: current price"
  else if data.all (fun r => r.market_cap.isNone) then .error "KeyError: market cap"
  else if data.all (fun r => r.total_volume.isNone) then .error "KeyError: total volume"
  else if data.all (fun r => r.price_change_percentage_24h.isNone) then
    .error "KeyError: price change percentage 24h"
  else .ok (some (data.map rawToNorm))

/-- Modelled from the spec: normalize as the claim C2 states it, dropping
every record that misses one of the six required fields.  Used only to
compare the claimed behavior with process_data. -/
def normalize_spec (data : List RawRecord) : List NormRecord :=
  (data.filter (fun r =>
    r.name.isSome && r.symbol.isSome && r.current_price.isSome &&
    r.market_cap.isSome && r.total_volume.isSome &&
    r.price_change_percentage_24h.isSome)).map rawToNorm

/- ### Aggregator: analyze_data (crypto_tracker.py lines 49-63) -/

/-- Error text of the IndexError raised by Series.iloc on position 0 of
an empty selection. -/
def index_error_msg : String :=
  "IndexError: single positional indexer is out-of-bounds"

/-- Error text of the TypeError raised by Python abs on a str, surfaced
when DataFrame.abs() reaches a string cell. -/
def abs_type_error : String :=
  "TypeError: bad operand type for abs: str"

/-- Models df.nlargest(n, col): rows whose key is NaN are dropped, the
remaining rows are ordered by descending key with ties keeping the first
occurrence (the default keep-first policy), and the first n are taken. -/
def nlargestBy (n : Nat) (key : NormRecord → Option Rat) (df : List NormRecord) :
    List NormRecord :=
  (sortDescBy (fun r => (key r).getD 0)
    (df.filter (fun r => (key r).isSome))).take n

/-- Models df.nsmallest(n, col): ascending counterpart of nlargestBy,
again dropping NaN keys and keeping the first occurrence on ties. -/
def nsmallestBy (n : Nat) (key : NormRecord → Option Rat) (df : List NormRecord) :
    List NormRecord :=
  (sortAscBy (fun r => (key r).getD 0)
    (df.filter (fun r => (key r).isSome))).take n

/-- One entry of the top_5_by_market_cap list: the Name, Symbol,
Market Cap (USD) and Price (USD) cells of a head(5) row, as produced by
to_dict on the four-column selection. -/
def top_5_by_market_cap (df : List NormRecord) :
    List (Option String × Option String × Option Rat × Option Rat) :=
  (df.take 5).map (fun r => (r.name, r.symbol, r.market_cap, r.price))

/-- Models the expression df.nlargest(1, chg) followed by the Name column
and .iloc[0]: IndexError on an empty selection, otherwise the Name cell
of the first row. -/
def highest_24h_change (df : List NormRecord) : Except String (Option String) :=
  match nlargestBy 1 (fun r => r.change_24h) df with
  | [] => .error index_error_msg
  | r :: _ => .ok r.name

/-- Models df.nsmallest(1, chg) followed by the Name column and .iloc[0]. -/
def lowest_24h_change (df : List NormRecord) : Except String (Option String) :=
  match nsmallestBy 1 (fun r => r.change_24h) df with
  | [] => .error index_error_msg
  | r :: _ => .ok r.name

/-- Models DataFrame.abs() on a frame holding the Name and Symbol string
columns: Python abs on a str raises TypeError, so the call fails as soon
as any row carries a string in those columns; when every Name and Symbol
cell is NaN (abs of NaN is NaN, and the elementwise loop is vacuous on an
empty column) the numeric cells are replaced by their absolute values. -/
def frameAbs (df : List NormRecord) : Except String (List NormRecord) :=
  if df.any (fun r => r.name.isSome || r.symbol.isSome) then
    .error abs_type_error
  else
    .ok (df.map (fun r =>
      { r with
        price := r.price.map (fun q => |q|),
        market_cap := r.market_cap.map (fun q => |q|),
        volume_24h := r.volume_24h.map (fun q => |q|),
        change_24h := r.change_24h.map (fun q => |q|) }))

/-- Models the volatile_coins entry (crypto_tracker.py line 61):
df.nlargest(3, chg).abs() followed by the Name and 24h Change selection
and to_dict. -/
def volatile_coins (df : List NormRecord) :
    Except String (List (Option String × Option Rat)) := do
  let a ← frameAbs (nlargestBy 3 (fun r => r.change_24h) df)
  .ok (a.map (fun r => (r.name, r.change_24h)))

/-- Modelled from the spec for claim C1 only: the top-3 records ranked by
descending absolute 24h change, ties broken by snapshot order.  Used to
compare the claimed ranking with the one the code computes. -/
def volatile_spec (df : List NormRecord) : List NormRecord :=
  (sortDescBy (fun r => |(r.change_24h).getD 0|) df).take 3

/-- The analysis dict built by analyze_data, with fields in the order of
the source dict literal. -/
structure Analysis where
  timestamp : String
  top_5_by_market_cap : List (Option String × Option String × Option Rat × Option Rat)
  average_price : Option Rat
  median_price : Option Rat
  total_market_cap : Rat
  highest_24h_change : Option String
  highest_24h_change_value : Option Rat
  lowest_24h_change : Option String
  lowest_24h_change_value : Option Rat
  volatile_coins : List (Option String × Option Rat)
deriving Repr, DecidableEq

/-- Models analyze_data (crypto_tracker.py lines 49-63).  The dict
literal evaluates its entries in source order; the timestamp, head(5)
selection, mean, median, sum, max and min entries cannot raise, while
the highest_24h_change, lowest_24h_change and volatile_coins entries can,
so those three are sequenced here in their source order and the first
exception aborts the call. -/
def analyze_data (now : String) (df : List NormRecord) : Except String Analysis := do
  let hi ← highest_24h_change df
  let lo ← lowest_24h_change df
  let vol ← volatile_coins df
  .ok { timestamp := now,
        top_5_by_market_cap := top_5_by_market_cap df,
        average_price := meanOf (df.filterMap (fun r => r.price)),
        median_price := medianOf (df.filterMap (fun r => r.price)),
        total_market_cap := sumOf (df.filterMap (fun r => r.market_cap)),
        highest_24h_change := hi,
        highest_24h_change_value := seriesMax (df.map (fun r => r.change_24h)),
        lowest_24h_change := lo,
        lowest_24h_change_value := seriesMin (df.map (fun r => r.change_24h)),
        volatile_coins := vol }

/- ### Report renderer: the Live Data sheet of update_excel
(crypto_tracker.py lines 65-93) -/

/-- An openpyxl cell value: untouched (empty), a string, or a number. -/
inductive Cell where
  | empty
  | s (v : String)
  | n (v : Rat)
deriving Repr, DecidableEq, BEq

/-- Header row written by df.to_excel for the processed frame. -/
def headerRow : List Cell :=
  [.s "Name", .s "Symbol", .s "Price (USD)", .s "Market Cap (USD)",
   .s "24h Volume (USD)", .s "24h Change (%)"]

/-- A cell holding an optional string; NaN cells are written as empty. -/
def strCell : Option String → Cell
  | none => .empty
  | some v => .s v

/-- A cell holding an optional number; NaN cells are written as empty. -/
def numCell : Option Rat → Cell
  | none => .empty
  | some v => .n v

/-- The six cells df.to_excel writes for one processed row. -/
def recordRow (r : NormRecord) : List Cell :=
  [strCell r.name, strCell r.symbol, numCell r.price, numCell r.market_cap,
   numCell r.volume_24h, numCell r.change_24h]

/-- The grid written by df.to_excel(writer, sheet_name=Live Data,
index=False): the header row at the first row, then one row per record,
in order. -/
def dfWrite (df : List NormRecord) : List (List Cell) :=
  headerRow :: df.map recordRow

/-- Pads a row with empty cells up to the given width. -/
def padTo (row : List Cell) (w : Nat) : List Cell :=
  row ++ List.replicate (w - row.length) .empty

/-- Writes one cell of a row, padding with empty cells as openpyxl does
for untouched positions. -/
def setRow (row : List Cell) (c : Nat) (v : Cell) : List Cell :=
  (padTo row (c + 1)).set c v

/-- Writes one cell of a grid (0-based row and column), padding with
empty rows as needed; a later write to the same position replaces the
earlier value, as openpyxl cell assignment does. -/
def setGrid (g : List (List Cell)) (r c : Nat) (v : Cell) : List (List Cell) :=
  let gp := g ++ List.replicate (r + 1 - g.length) []
  gp.set r (setRow (gp.getD r []) c v)

/-- Applies a list of cell writes in order. -/
def applyWrites (g : List (List Cell)) (ws : List (Nat × Nat × Cell)) :
    List (List Cell) :=
  ws.foldl (fun g w => setGrid g w.1 w.2.1 w.2.2) g

/-- The cell writes of status_data.to_excel(writer, sheet_name=Live Data,
startrow=0, index=False): the integer column labels 0 and 1 of the
four-row status frame at the first row, then the four status rows, in
the first two columns. -/
def statusWrites (ts : String) : List (Nat × Nat × Cell) :=
  [(0, 0, .n 0), (0, 1, .n 1),
   (1, 0, .s "Status"), (1, 1, .s "LIVE"),
   (2, 0, .s "Last Updated"), (2, 1, .s ts),
   (3, 0, .s "Next Update In"), (3, 1, .s "5 minutes"),
   (4, 0, .s ""), (4, 1, .s "")]

/-- Models the Live Data sheet produced by update_excel (crypto_tracker.py
lines 67-93): df.to_excel writes the full table starting at the first
row, then status_data.to_excel writes the status block at startrow=0 on
the same sheet, overwriting the cells it touches.  The Analysis sheet is
written afterwards on a separate second sheet and does not affect this
grid. -/
def liveDataSheet (df : List NormRecord) (ts : String) : List (List Cell) :=
  applyWrites (dfWrite df) (statusWrites ts)

/-- The 0-based index of the sheet row the header styling loop touches:
the source iterates over worksheet[5], the fifth 1-based row, commented
as adjusted to account for the status rows. -/
def styledRowIndex : Nat := 4

/- ### The tracker object (crypto_tracker.py lines 9-12) -/

/-- The attributes CryptoTracker.init sets on the object. -/
structure CryptoTracker where
  base_url : String
  excel_file : String
deriving Repr, DecidableEq

/-- Models CryptoTracker.__init__ (crypto_tracker.py lines 10-12): no
parameter besides self, fixed base URL and workbook path. -/
def CryptoTracker.pyInit : CryptoTracker :=
  ⟨"https://api.coingecko.com/api/v3", "crypto_tracker.xlsx"⟩

/-- Models the Python call CryptoTracker(**kwargs): since __init__
declares no parameter besides self, any keyword argument raises a
TypeError; with no arguments the object of pyInit is produced. -/
def CryptoTracker.construct (kwargs : List (String × String)) :
    Except String CryptoTracker :=
  match kwargs with
  | [] => .ok CryptoTracker.pyInit
  | (k, _) :: _ =>
    .error ("TypeError: init got an unexpected keyword argument " ++ k)

/- ### Refresh loop: run (crypto_tracker.py lines 133-157) -/

/-- Outcome of one try-block body of the loop: completed (including the
path where fetch returned None and the cycle was skipped), or a raised
exception caught by the except branch. -/
inductive CycleOutcome where
  | completed
  | exn (msg : String)
deriving Repr, DecidableEq

/-- One fetch-process-analyze-render cycle of run (crypto_tracker.py
lines 142-151), given the HTTP outcome of the cycle and the current
timestamp: returns the try-block outcome and the Live Data grid written
by update_excel, none when no workbook write happened this cycle.  When
process_data returns None the subsequent analyze_data call on None would
raise a TypeError; that branch is unreachable here because process_data
returns None only on an empty input and the falsy check on raw_data
already skipped that case. -/
def runCycle (now : String) (o : HttpOutcome) :
    CycleOutcome × Option (List (List Cell)) :=
  match fetch_top_50_data o with
  | .failureNone _ => (.completed, none)
  | .uncaught e => (.exn e, none)
  | .success rs =>
    if rs.isEmpty then (.completed, none)
    else
      match process_data rs with
      | .error e => (.exn e, none)
      | .ok none => (.exn "TypeError: NoneType has no attribute head", none)
      | .ok (some df) =>
        match analyze_data now df with
        | .error e => (.exn e, none)
        | .ok a => (.completed, some (liveDataSheet df a.timestamp))

/-- The two phases of the loop: Running (normal cadence) and Backoff
(inside the except branch, during the 60 second cooldown sleep). -/
inductive LoopPhase where
  | Running
  | Backoff
deriving Repr, DecidableEq

/-- What one iteration of the while-True loop does after its try block:
the phase during the sleep, the sleep length in seconds, the phase when
the next iteration starts, and whether the loop terminates. -/
structure LoopIter where
  duringSleep : LoopPhase
  sleepSeconds : Nat
  afterSleep : LoopPhase
  terminates : Bool
deriving Repr, DecidableEq

/-- Models one iteration of run (crypto_tracker.py lines 138-157): on a
completed try block the loop sleeps the update interval and stays in
Running; on a caught exception it prints, sleeps 60 seconds (Backoff) and
re-enters the loop in Running.  The while-True loop has no break, so no
iteration terminates it. -/
def run_step (interval : Nat) (o : CycleOutcome) : LoopIter :=
  match o with
  | .completed => ⟨.Running, interval, .Running, false⟩
  | .exn _ => ⟨.Backoff, 60, .Running, false⟩

/-- The iterations the loop performs for a given sequence of cycle
outcomes: one iteration per outcome, none of them terminating. -/
def run_trace (interval : Nat) : List CycleOutcome → List LoopIter
  | [] => []
  | o :: os => run_step interval o :: run_trace interval os

/- ### Report generator: generate_report (generate_report.py lines 6-62) -/

/-- The DataFrame pd.read_excel yields from the first sheet of the
workbook: the first sheet row becomes the column labels, the remaining
rows the data. -/
structure Frame where
  header : List Cell
  rows : List (List Cell)
deriving Repr, DecidableEq

/-- Models pd.read_excel on a sheet grid. -/
def readExcel (g : List (List Cell)) : Frame :=
  ⟨g.headD [], g.tail⟩

/-- Position of a column label in the frame header, none when the label
is absent. -/
def colIdx (f : Frame) (label : Cell) : Option Nat :=
  f.header.findIdx? (fun c => c == label)

/-- Models a single-column access excel_data[label]: KeyError when the
label is not among the column labels, otherwise the cells of that column
over all rows. -/
def getCol (f : Frame) (label : Cell) : Except String (List Cell) :=
  match colIdx f label with
  | none => .error "KeyError"
  | some i => .ok (f.rows.map (fun r => r.getD i .empty))

/-- Models a multi-column selection excel_data with a list of labels:
KeyError when any label is absent, otherwise the selected cells row by
row. -/
def selectCols (f : Frame) (labels : List Cell) :
    Except String (List (List Cell)) :=
  if labels.all (fun l => (colIdx f l).isSome) then
    .ok (f.rows.map (fun r => labels.map (fun l => r.getD ((colIdx f l).getD 0) .empty)))
  else .error "KeyError: columns not in index"

/-- Models excel_data.head(n). -/
def frameHead (n : Nat) (f : Frame) : Frame :=
  ⟨f.header, f.rows.take n⟩

/-- The numeric value of a cell, none for empty or string cells. -/
def cellNum : Cell → Option Rat
  | .n q => some q
  | _ => none

/-- The present numeric values of a column. -/
def cellNums (cs : List Cell) : List Rat :=
  cs.filterMap cellNum

/-- Models excel_data.nlargest(n, label) on the read-back frame: KeyError
when the label column is absent; otherwise the rows with a present value
in that column ordered by descending value, ties keeping the first
occurrence, and the first n taken. -/
def frameNlargest (n : Nat) (label : Cell) (f : Frame) : Except String Frame :=
  match colIdx f label with
  | none => .error "KeyError"
  | some i =>
    .ok ⟨f.header,
      (sortDescBy (fun r => (cellNum (r.getD i .empty)).getD 0)
        (f.rows.filter (fun r => (cellNum (r.getD i .empty)).isSome))).take n⟩

/-- Models excel_data.nsmallest(n, label): ascending counterpart of
frameNlargest. -/
def frameNsmallest (n : Nat) (label : Cell) (f : Frame) : Except String Frame :=
  match colIdx f label with
  | none => .error "KeyError"
  | some i =>
    .ok ⟨f.header,
      (sortAscBy (fun r => (cellNum (r.getD i .empty)).getD 0)
        (f.rows.filter (fun r => (cellNum (r.getD i .empty)).isSome))).take n⟩

/-- Models Series.iloc on position 0: IndexError on an empty column. -/
def iloc0 (cs : List Cell) : Except String Cell :=
  match cs with
  | [] => .error index_error_msg
  | c :: _ => .ok c

/-- Models len(excel_data[excel_data[label].abs() > t]): Series.abs
raises TypeError as soon as the column holds a string cell; otherwise the
rows whose value exceeds t in magnitude are counted (NaN compares
false). -/
def absGtCount (cs : List Cell) (t : Rat) : Except String Nat :=
  if cs.any (fun c => match c with | .s _ => true | _ => false) then
    .error abs_type_error
  else
    .ok ((cellNums cs).filter (fun q => t < |q|)).length

/-- The dynamic constituents of the report template of generate_report
(generate_report.py lines 13-51), in template order; the fixed narrative
text around them is not repeated here. -/
structure ReportContent where
  generated_on : String
  coin_count : Nat
  total_market_cap : Rat
  average_price : Option Rat
  median_price : Option Rat
  top5_rows : List (List Cell)
  highest_gain_name : Cell
  highest_gain_value : Option Rat
  biggest_drop_name : Cell
  biggest_drop_value : Option Rat
  total_volume_24h : Rat
  average_volume : Option Rat
  concentration_pct : Rat
  over5_count : Nat
  over10_count : Nat
deriving Repr, DecidableEq

/-- Models the f-string body of generate_report: its interpolations are
evaluated in template order and the first raised exception aborts the
report.  The column labels accessed are exactly those of the source:
Market Cap (USD), Price (USD), Name, Symbol, 24h Change (%) and
24h Volume. -/
def report_content (now : String) (ed : Frame) : Except String ReportContent := do
  let capCol ← getCol ed (.s "Market Cap (USD)")
  let priceCol ← getCol ed (.s "Price (USD)")
  let top5 ← selectCols (frameHead 5 ed)
    [.s "Name", .s "Symbol", .s "Market Cap (USD)", .s "Price (USD)"]
  let hiFrame ← frameNlargest 1 (.s "24h Change (%)") ed
  let hiNameCol ← getCol hiFrame (.s "Name")
  let hiName ← iloc0 hiNameCol
  let chgCol ← getCol ed (.s "24h Change (%)")
  let loFrame ← frameNsmallest 1 (.s "24h Change (%)") ed
  let loNameCol ← getCol loFrame (.s "Name")
  let loName ← iloc0 loNameCol
  let volCol ← getCol ed (.s "24h Volume")
  let cap5 ← getCol (frameHead 5 ed) (.s "Market Cap (USD)")
  let cnt5 ← absGtCount chgCol 5
  let cnt10 ← absGtCount chgCol 10
  .ok { generated_on := now,
        coin_count := ed.rows.length,
        total_market_cap := sumOf (cellNums capCol),
        average_price := meanOf (cellNums priceCol),
        median_price := medianOf (cellNums priceCol),
        top5_rows := top5,
        highest_gain_name := hiName,
        highest_gain_value := seriesMax (chgCol.map cellNum),
        biggest_drop_name := loName,
        biggest_drop_value := seriesMin (chgCol.map cellNum),
        total_volume_24h := sumOf (cellNums volCol),
        average_volume := meanOf (cellNums volCol),
        concentration_pct := sumOf (cellNums cap5) / sumOf (cellNums capCol) * 100,
        over5_count := cnt5,
        over10_count := cnt10 }

/-- Observable outcome of generate_report: the file written, as its path
together with the report content, and the value returned to the caller.
On any exception the except branch prints the error, writes nothing and
returns None. -/
structure GenOutcome where
  written : Option (String × ReportContent)
  returned : Option ReportContent
deriving Repr, DecidableEq

/-- Models generate_report (generate_report.py lines 6-62): the report is
computed from the frame read back from tracker.excel_file, written to the
literal path report.txt and returned; the output_file parameter appears
in the signature with default Crypto_Analysis_Report.pdf but is never
read in the body. -/
def generate_report (now : String) (excel_data : Frame) (output_file : String) :
    GenOutcome :=
  match report_content now excel_data with
  | .ok c => ⟨some ("report.txt", c), some c⟩
  | .error _ => ⟨none, none⟩

/- ### Concrete sample data -/

/-- A complete raw record, as a successful fetch would parse it. -/
def rawBitcoin : RawRecord :=
  ⟨some "Bitcoin", some "BTC", some 50000, some 1000000, some 30000, some 2⟩

/-- A raw record whose market_cap key is absent from the JSON object. -/
def rawNoCap : RawRecord :=
  ⟨some "NoCap", some "NC", some 10, none, some 5, some 1⟩

/-- A raw batch holding one complete record and one record missing its
market_cap field. -/
def c2data : List RawRecord := [rawBitcoin, rawNoCap]

/-- The three-record scenario snapshot of the spec: Bitcoin with cap
1000000 and change 2, Ether with cap 500000 and change -12.5, Coin3 with
cap 100000 and change 20. -/
def snap3 : List NormRecord :=
  [⟨some "Bitcoin", some "BTC", some 50000, some 1000000, some 30000, some 2⟩,
   ⟨some "Ether", some "ETH", some 4000, some 500000, some 20000, some (mkRat (-25) 2)⟩,
   ⟨some "Coin3", some "C3", some 2, some 100000, some 1000, some 20⟩]

/-- A four-record snapshot whose largest absolute 24h change is a
negative one: changes 1, 2, 3 and -10. -/
def snap4 : List NormRecord :=
  [⟨some "Alpha", some "AL", some 10, some 400, some 40, some 1⟩,
   ⟨some "Beta", some "BE", some 20, some 300, some 30, some 2⟩,
   ⟨some "Gamma", some "GA", some 30, some 200, some 20, some 3⟩,
   ⟨some "Delta", some "DE", some 40, some 100, some 10, some (-10)⟩]

/-- A two-record snapshot whose records share the extreme 24h change. -/
def snapTie : List NormRecord :=
  [⟨some "TieFirst", some "T1", some 1, some 200, some 2, some 5⟩,
   ⟨some "TieSecond", some "T2", some 1, some 100, some 2, some 5⟩]

/- ### Claim theorems -/

/-- C1: the claim states that the volatile-coins list of analyze is the
top-3 by descending absolute 24h change, so that a large negative change
outranks a smaller positive one.  On snap4 the code selects the top-3 by
the signed 24h change, so the -10 record Delta is left out of the
selection while the absolute ranking of the claim puts it first; the
subsequent DataFrame.abs() then raises a TypeError on the string Name
and Symbol columns, so analyze_data raises instead of returning a
volatile-coins list at all. -/
theorem c1_volatile_selection_is_by_signed_change :
    (nlargestBy 3 (fun r => r.change_24h) snap4).map (fun r => r.name) =
      [some "Gamma", some "Beta", some "Alpha"] ∧
    (volatile_spec snap4).map (fun r => r.name) =
      [some "Delta", some "Gamma", some "Beta"] ∧
    analyze_data "t" snap4 = .error abs_type_error := by
  refine ⟨rfl, rfl, rfl⟩

/-- C2 counterexample: the claim states that a raw record missing a
required field is silently dropped by process_data.  On c2data the record
missing its market_cap is kept (with a NaN cell), so the produced list
differs from the dropping normalize of the claim. -/
theorem c2_missing_field_record_is_kept :
    process_data c2data = .ok (some (c2data.map rawToNorm)) ∧
    (c2data.map rawToNorm).length = 2 ∧
    normalize_spec c2data = [rawToNorm rawBitcoin] ∧
    (normalize_spec c2data).length = 1 := by
  refine ⟨rfl, rfl, rfl, rfl⟩

/-- C2 amended: for a non-empty raw batch in which each of the six
required fields is present in at least one record, process_data selects
and renames exactly the six fields, keeps every record in source order
(records missing a field keep a NaN cell rather than being dropped), and
preserves the row count. -/
theorem c2_normalize_keeps_all_rows (data : List RawRecord)
    (h0 : data.isEmpty = false)
    (h1 : (data.all fun r => r.name.isNone) = false)
    (h2 : (data.all fun r => r.symbol.isNone) = false)
    (h3 : (data.all fun r => r.current_price.isNone) = false)
    (h4 : (data.all fun r => r.market_cap.isNone) = false)
    (h5 : (data.all fun r => r.total_volume.isNone) = false)
    (h6 : (data.all fun r => r.price_change_percentage_24h.isNone) = false) :
    process_data data = .ok (some (data.map rawToNorm)) ∧
    (data.map rawToNorm).length = data.length := by
  refine ⟨?_, by simp⟩
  simp [process_data, h0, h1, h2, h3, h4, h5, h6]

/-- C2 witness: the amended theorem applied to the concrete batch
c2data. -/
theorem c2_normalize_keeps_all_rows_witness :
    process_data c2data = .ok (some (c2data.map rawToNorm)) ∧
    (c2data.map rawToNorm).length = c2data.length :=
  c2_normalize_keeps_all_rows c2data rfl rfl rfl rfl rfl rfl rfl

/-- Helper: every cycle either completes its try block or writes no
workbook this cycle. -/
theorem runCycle_completed_or_no_write (now : String) (o : HttpOutcome) :
    (runCycle now o).1 = CycleOutcome.completed ∨ (runCycle now o).2 = none := by
  unfold runCycle
  cases fetch_top_50_data o with
  | failureNone p => exact Or.inl rfl
  | uncaught e => exact Or.inr rfl
  | success rs =>
    dsimp only
    split
    · exact Or.inl rfl
    · cases process_data rs with
      | error e => exact Or.inr rfl
      | ok res =>
        cases res with
        | none => exact Or.inr rfl
        | some df =>
          dsimp only
          cases analyze_data now df with
          | error e => exact Or.inr rfl
          | ok a => exact Or.inl rfl

/-- Helper: whenever the try block of a cycle raised an exception, no
workbook write happened in that cycle. -/
theorem runCycle_exn_no_write (now : String) (o : HttpOutcome) (m : String)
    (h : (runCycle now o).1 = CycleOutcome.exn m) : (runCycle now o).2 = none := by
  rcases runCycle_completed_or_no_write now o with hc | hn
  · rw [hc] at h
    simp at h
  · exact hn

/-- C3: on an empty snapshot analyze_data raises (the IndexError of
.iloc[0] on the empty nlargest selection) before any mean or median value
is returned, and in any cycle whose try block raised an exception no
workbook write happens. -/
theorem c3_empty_snapshot_fails_and_no_write :
    (∀ now, analyze_data now [] = .error index_error_msg) ∧
    (∀ now o m, (runCycle now o).1 = CycleOutcome.exn m → (runCycle now o).2 = none) := by
  exact ⟨fun now => rfl, fun now o m h => runCycle_exn_no_write now o m h⟩

/-- C3 witness: a concrete cycle whose analyze step raises (one complete
record fetched with status 200), to which the second part of the theorem
applies; the cycle writes no workbook. -/
theorem c3_empty_snapshot_fails_and_no_write_witness :
    (runCycle "t" (HttpOutcome.response ⟨200, .records [rawBitcoin]⟩)).1 =
      CycleOutcome.exn abs_type_error ∧
    (runCycle "t" (HttpOutcome.response ⟨200, .records [rawBitcoin]⟩)).2 = none :=
  ⟨rfl, c3_empty_snapshot_fails_and_no_write.2 "t"
    (HttpOutcome.response ⟨200, .records [rawBitcoin]⟩) abs_type_error rfl⟩

/-- C4 counterexample: the claim states that every non-2xx response makes
fetch return a Failure.  A final response with status 301 (not a 2xx
status) and a well-formed body is below the raise_for_status threshold of
400, so fetch returns the parsed records instead. -/
theorem c4_non_2xx_can_succeed :
    fetch_top_50_data (.response ⟨301, .records []⟩) = .success [] :=
  rfl

/-- C4 amended: for every outcome of the HTTP request, fetch either
returns None with a printed human-readable cause or returns the parsed
records, and it never lets an exception escape; a transport error always
yields the None return with its cause printed, a malformed body yields
the None return with either the HTTPError cause (status in [400, 600))
or the decode-error cause printed, and a well-formed body yields the
parsed records exactly when the status is outside [400, 600) (2xx or
not), the HTTPError cause being printed otherwise. -/
theorem c4_fetch_never_raises :
    (∀ o, (∃ m, fetch_top_50_data o = .failureNone m) ∨
          (∃ rs, fetch_top_50_data o = .success rs)) ∧
    (∀ o, (fetch_top_50_data o).isUncaught = false) ∧
    (∀ m, fetch_top_50_data (.transportError m) =
      .failureNone ("Error fetching data: " ++ m)) ∧
    (∀ st m, fetch_top_50_data (.response ⟨st, .malformed m⟩) =
      if 400 ≤ st && st < 600 then
        .failureNone ("Error fetching data: " ++ http_error_msg st)
      else .failureNone ("Error fetching data: " ++ m)) ∧
    (∀ st rs, fetch_top_50_data (.response ⟨st, .records rs⟩) =
      if 400 ≤ st && st < 600 then
        .failureNone ("Error fetching data: " ++ http_error_msg st)
      else .success rs) := by
  refine ⟨?_, ?_, fun m => rfl, ?_, ?_⟩
  · intro o
    cases o with
    | transportError m => exact Or.inl ⟨"Error fetching data: " ++ m, rfl⟩
    | response r =>
      rcases r with ⟨st, body⟩
      cases h : (400 ≤ st && st < 600)
      · cases body with
        | records rs => exact Or.inr ⟨rs, by simp [fetch_top_50_data, h]⟩
        | malformed m =>
          exact Or.inl ⟨"Error fetching data: " ++ m, by simp [fetch_top_50_data, h]⟩
      · exact Or.inl ⟨"Error fetching data: " ++ http_error_msg st,
          by simp [fetch_top_50_data, h]⟩
  · intro o
    cases o with
    | transportError x => rfl
    | response r =>
      rcases r with ⟨st, body⟩
      cases h : (400 ≤ st && st < 600)
      · cases body <;> simp [fetch_top_50_data, FetchResult.isUncaught, h]
      · simp [fetch_top_50_data, FetchResult.isUncaught, h]
  · intro st m
    cases h : (400 ≤ st && st < 600) <;> simp [fetch_top_50_data, h]
  · intro st rs
    cases h : (400 ≤ st && st < 600) <;> simp [fetch_top_50_data, h]

/-- C5: CryptoTracker.__init__ takes no parameter besides self, so the
call CryptoTracker(excel_file=...) made by generate_report.main raises a
TypeError, and the workbook path is the fixed default rather than a
configurable constructor parameter. -/
theorem c5_constructor_has_no_path_parameter :
    CryptoTracker.construct [("excel_file", "output/crypto_live_data.xlsx")] =
      .error "TypeError: init got an unexpected keyword argument excel_file" ∧
    CryptoTracker.pyInit.excel_file = "crypto_tracker.xlsx" :=
  ⟨rfl, rfl⟩

/-- C6: reading back the Live Data sheet written for the scenario
snapshot and generating the report raises a KeyError (the sheet header
was clobbered by the status block, so no Name or Symbol column exists),
and even on a frame with the intact six-column table the report raises a
KeyError on the 24h Volume column (the written column is named
24h Volume (USD)); in both cases the except branch returns None and no
report file is written, so no trading-volume section is ever produced. -/
theorem c6_report_fails_before_volume_section :
    generate_report "t" (readExcel (liveDataSheet snap3 "ts"))
      "output/Crypto_Analysis_Report.pdf" = ⟨none, none⟩ ∧
    generate_report "t" (readExcel (dfWrite snap3))
      "Crypto_Analysis_Report.pdf" = ⟨none, none⟩ :=
  ⟨rfl, by decide⟩

/-- C7: on the three-record scenario snapshot the highest-change and
lowest-change entries are computed exactly as the claim states (Coin3
with 20, Ether with -12.5, and the first record in snapshot order wins a
tie), but analyze_data itself then raises a TypeError while building the
volatile_coins entry (DataFrame.abs() on the string Name and Symbol
columns), so it never returns these values to its caller. -/
theorem c7_extremes_match_but_analyze_raises :
    highest_24h_change snap3 = .ok (some "Coin3") ∧
    lowest_24h_change snap3 = .ok (some "Ether") ∧
    seriesMax (snap3.map fun r => r.change_24h) = some 20 ∧
    seriesMin (snap3.map fun r => r.change_24h) = some (mkRat (-25) 2) ∧
    highest_24h_change snapTie = .ok (some "TieFirst") ∧
    analyze_data "t" snap3 = .error abs_type_error := by
  refine ⟨rfl, rfl, rfl, rfl, rfl, rfl⟩

/-- C8: the Live Data sheet for the scenario snapshot.  The data table is
written first at the top of the sheet and the status block is then
written over its first five rows in the first two columns, so the header
cells Name and Symbol become the numeric labels 0 and 1, the first three
records lose their Name and Symbol cells, the name Bitcoin appears
nowhere in the sheet, and the row the code styles as the table header
(worksheet row 5) is the blank padding row of the status frame.  The
claimed layout of a status block followed by a separator and the complete
intact table does not exist. -/
theorem c8_status_block_overwrites_table :
    liveDataSheet snap3 "2024-01-01 00:00:00" =
      [[.n 0, .n 1, .s "Price (USD)", .s "Market Cap (USD)",
        .s "24h Volume (USD)", .s "24h Change (%)"],
       [.s "Status", .s "LIVE", .n 50000, .n 1000000, .n 30000, .n 2],
       [.s "Last Updated", .s "2024-01-01 00:00:00", .n 4000, .n 500000,
        .n 20000, .n (mkRat (-25) 2)],
       [.s "Next Update In", .s "5 minutes", .n 2, .n 100000, .n 1000, .n 20],
       [.s "", .s ""]] ∧
    ((liveDataSheet snap3 "2024-01-01 00:00:00").any fun row =>
      row.any fun c => c == Cell.s "Bitcoin") = false ∧
    (liveDataSheet snap3 "2024-01-01 00:00:00").getD styledRowIndex [] =
      [Cell.s "", Cell.s ""] := by
  refine ⟨rfl, rfl, rfl⟩

/-- C9: one loop iteration on a caught exception enters Backoff, sleeps
exactly 60 seconds, and re-enters the loop in Running; no iteration ever
terminates the while-True loop, and the loop performs one iteration per
cycle outcome however many failures occur. -/
theorem c9_loop_backs_off_and_never_ends :
    (∀ i m, run_step i (.exn m) = ⟨.Backoff, 60, .Running, false⟩) ∧
    (∀ i o, (run_step i o).terminates = false) ∧
    (∀ i os, ((run_trace i os).all fun s => !s.terminates) = true) ∧
    (∀ i os, (run_trace i os).length = os.length) := by
  refine ⟨fun i m => rfl, fun i o => by cases o <;> rfl, fun i os => ?_, fun i os => ?_⟩
  · induction os with
    | nil => rfl
    | cons o os ih =>
      simp only [run_trace, List.all_cons, ih, Bool.and_true]
      cases o <;> rfl
  · induction os with
    | nil => rfl
    | cons o os ih => simp [run_trace, ih]

/-- C10: generate_report ignores its output_file argument entirely: two
calls differing only in that argument have identical observable outcomes
(same computed report, same write), and whenever a file is written its
path is the literal report.txt. -/
theorem c10_output_file_has_no_effect :
    (∀ now ed f g, generate_report now ed f = generate_report now ed g) ∧
    (∀ now ed f,
      ((generate_report now ed f).written.map Prod.fst).getD "report.txt" =
        "report.txt") := by
  refine ⟨fun now ed f g => rfl, fun now ed f => ?_⟩
  cases h : report_content now ed <;> simp [generate_report, h]

end CryptoAssignment
